import Mathlib

/-
Verification of the turnstile authenticating reverse-proxy gateway.

The development embeds, as executable Lean definitions, the parts of the
repository that the verified properties speak about:
  - src/lib/errors.js : the HTTP error module (STATUS_CODES reverse map,
    the HTTPError class, its toJSON serializer and terminal handler, and
    the RequestError / AuthorizationError / NotFoundError subclasses);
  - src/bin/server (server part) : the middleware registration order;
  - src/bin/server (client part) : the reference client's header assembly,
    digest computation, and date truncation for signing;
  - src/docs/_pages/configuration.md : the documented configuration surface
    and its default values.
-/

/-- Mirror of Node's `require('http').STATUS_CODES` table (Node 6 era, the
runtime targeted by this repository), as copied by src/lib/errors.js line 3
into its module-level `STATUS_CODES` object.  Keys are the numeric status
codes, values the standard status phrases. -/
def nodeStatusCodes : List (Nat × String) :=
  [ (100, "Continue"),
    (101, "Switching Protocols"),
    (102, "Processing"),
    (200, "OK"),
    (201, "Created"),
    (202, "Accepted"),
    (203, "Non-Authoritative Information"),
    (204, "No Content"),
    (205, "Reset Content"),
    (206, "Partial Content"),
    (207, "Multi-Status"),
    (208, "Already Reported"),
    (226, "IM Used"),
    (300, "Multiple Choices"),
    (301, "Moved Permanently"),
    (302, "Found"),
    (303, "See Other"),
    (304, "Not Modified"),
    (305, "Use Proxy"),
    (307, "Temporary Redirect"),
    (308, "Permanent Redirect"),
    (400, "Bad Request"),
    (401, "Unauthorized"),
    (402, "Payment Required"),
    (403, "Forbidden"),
    (404, "Not Found"),
    (405, "Method Not Allowed"),
    (406, "Not Acceptable"),
    (407, "Proxy Authentication Required"),
    (408, "Request Timeout"),
    (409, "Conflict"),
    (410, "Gone"),
    (411, "Length Required"),
    (412, "Precondition Failed"),
    (413, "Payload Too Large"),
    (414, "URI Too Long"),
    (415, "Unsupported Media Type"),
    (416, "Range Not Satisfiable"),
    (417, "Expectation Failed"),
    (418, "I'm a teapot"),
    (421, "Misdirected Request"),
    (422, "Unprocessable Entity"),
    (423, "Locked"),
    (424, "Failed Dependency"),
    (425, "Unordered Collection"),
    (426, "Upgrade Required"),
    (428, "Precondition Required"),
    (429, "Too Many Requests"),
    (431, "Request Header Fields Too Large"),
    (451, "Unavailable For Legal Reasons"),
    (500, "Internal Server Error"),
    (501, "Not Implemented"),
    (502, "Bad Gateway"),
    (503, "Service Unavailable"),
    (504, "Gateway Timeout"),
    (505, "HTTP Version Not Supported"),
    (506, "Variant Also Negotiates"),
    (507, "Insufficient Storage"),
    (508, "Loop Detected"),
    (509, "Bandwidth Limit Exceeded"),
    (510, "Not Extended"),
    (511, "Network Authentication Required") ]

/-- Character class of the regular expression `M_REJECT_CHARS = /[^a-zA-Z0-9_]/g`
in src/lib/errors.js line 5: the characters it does NOT reject. -/
def isStatusWordChar (c : Char) : Bool :=
  (('a' ≤ c && c ≤ 'z') || ('A' ≤ c && c ≤ 'Z') || ('0' ≤ c && c ≤ '9') || c = '_')

/-- Key built by the reverse-map loop of src/lib/errors.js lines 16-21:
`message.replace(M_REJECT_CHARS, '_').toUpperCase()` — every character outside
`[a-zA-Z0-9_]` becomes an underscore, then the result is uppercased. -/
def statusName (p : String) : String :=
  String.mk (p.data.map (fun c => if isStatusWordChar c then c.toUpper else '_'))

/-- Name computed by the HTTPError constructor at src/lib/errors.js line 36:
`STATUS_CODES[String(this.code)].replace(M_REJECT_CHARS, NOTHING)` — the
status phrase with every character outside `[a-zA-Z0-9_]` deleted (note: no
uppercasing, unlike the reverse-map keys). -/
def constructorName (p : String) : String :=
  String.mk (p.data.filter isStatusWordChar)

/-- Value stored in the JavaScript `STATUS_CODES` object: the original
numeric keys map to phrase strings, the reverse-map keys map to numbers. -/
inductive StatusVal where
  | str (s : String)
  | num (n : Nat)
deriving DecidableEq

/-- State of the `STATUS_CODES` object after the module-load loop of
src/lib/errors.js lines 16-21 has run: the original numeric-string keys (in
Object.keys order), followed by the reverse-map keys added by the loop.
`Object.keys` snapshots the key list before the loop adds any entry, so only
the numeric keys are iterated. -/
def statusTable : List (String × StatusVal) :=
  nodeStatusCodes.map (fun cp => (Nat.repr cp.1, StatusVal.str cp.2))
    ++ nodeStatusCodes.map (fun cp => (statusName cp.2, StatusVal.num cp.1))

/-- JavaScript property lookup on an object represented as an assignment
list: the last assignment to a key wins. -/
def jsGet (tbl : List (String × StatusVal)) (k : String) : Option StatusVal :=
  (tbl.reverse.find? (fun kv => kv.1 == k)).map (fun kv => kv.2)

/-- Phrase lookup `STATUS_CODES[String(code)]` used by the HTTPError
constructor (src/lib/errors.js lines 36-37) for a numeric code. -/
def statusPhrase? (c : Int) : Option String :=
  (nodeStatusCodes.find? (fun cp => ((cp.1 : Int)) == c)).map (fun cp => cp.2)

/-- Named constant lookup such as `STATUS_CODES.BAD_REQUEST`, resolved
through the reverse map built at module load. -/
def statusCodeNamed (k : String) : Int :=
  match jsGet statusTable k with
  | some (StatusVal.num n) => (n : Int)
  | _ => 0

/-- Resolution of `STATUS_CODES.INTERNAL_SERVER_ERROR` (src/lib/errors.js
lines 35, 73, 80). -/
def internalServerErrorCode : Int :=
  statusCodeNamed "INTERNAL_SERVER_ERROR"

/-- State of an HTTPError instance (src/lib/errors.js lines 26-39): the four
own properties the constructor assigns.  Metadata objects are represented as
string-to-string assignment lists. -/
structure HTTPError where
  code : Int
  name : String
  message : String
  metadata : List (String × String)
deriving DecidableEq

/-- Effective status code computed by the constructor line 35,
`Number(code) || STATUS_CODES.INTERNAL_SERVER_ERROR`.  The argument models
the result of the JavaScript `Number(code)` coercion: `none` stands for NaN
(a non-numeric code, or an absent one), `some 0` for any falsy numeric result
(code `0`, `null`, `false`, the empty string); both fall back to 500 through
the `||` operator.  Non-integral numeric codes are outside the model. -/
def effectiveCode : Option Int → Int
  | none => internalServerErrorCode
  | some n => if n = 0 then internalServerErrorCode else n

/-- Constructor of HTTPError (src/lib/errors.js lines 32-39).  `message` and
`metadata` are `none` when the argument is omitted or falsy (line 37 uses
`message || ...`, line 38 uses `metadata || {}`).  The result is `none` when
line 36 throws: `STATUS_CODES[String(this.code)]` is `undefined` for a code
absent from the status table, and `.replace` on `undefined` raises a
TypeError. -/
def HTTPError.mk? (code : Option Int) (message : Option String)
    (metadata : Option (List (String × String))) : Option HTTPError :=
  match statusPhrase? (effectiveCode code) with
  | none => none
  | some p =>
    some { code := effectiveCode code,
           name := constructorName p,
           message := message.getD p,
           metadata := metadata.getD [] }

/-- JSON value, as produced by `JSON.stringify` on the handler's error. -/
inductive JValue where
  | num (n : Int)
  | str (s : String)
  | obj (fields : List (String × JValue))

/-- Serialization of an HTTPError by `toJSON` (src/lib/errors.js lines 46-53):
an object with exactly the fields code, name, message, metadata, in that
order.  `JSON.stringify` consults this method, so the response body is the
serialization of exactly this object. -/
def HTTPError.toJSON (e : HTTPError) : List (String × JValue) :=
  [ ("code", JValue.num e.code),
    ("name", JValue.str e.name),
    ("message", JValue.str e.message),
    ("metadata", JValue.obj (e.metadata.map (fun kv => (kv.1, JValue.str kv.2)))) ]

/-- Error argument reaching the terminal handler: either an HTTPError
instance, or a plain Error carrying a `code` property (modelled, as in
`effectiveCode`, by the result of its `Number` coercion) and a `message`. -/
structure ErrInput where
  http : Option HTTPError
  code : Option Int
  message : Option String

/-- Terminal error handler `HTTPError.handler` (src/lib/errors.js lines
70-86).  A non-HTTPError is first wrapped via
`new HTTPError(err.code || 500, err.message)`; the response is then the pair
of the status code passed to `writeHead(err.code || 500)` and the body object
`JSON.stringify(err)` serializes.  The result is `none` when wrapping throws
(code outside the status table), in which case no response is written. -/
def HTTPError.handler (err : ErrInput) : Option (Int × List (String × JValue)) :=
  match err.http with
  | some e =>
    some (if e.code = 0 then internalServerErrorCode else e.code, HTTPError.toJSON e)
  | none =>
    match HTTPError.mk? err.code err.message none with
    | none => none
    | some e =>
      some (if e.code = 0 then internalServerErrorCode else e.code, HTTPError.toJSON e)

/-- Semantics of `Object.assign(base, extra)` restricted to string values:
keys of `base` keep their position, values overridden by `extra` where the
key collides, and the remaining keys of `extra` are appended. -/
def jsAssign (base extra : List (String × String)) : List (String × String) :=
  base.map (fun kv =>
    match extra.find? (fun kv2 => kv2.1 == kv.1) with
    | some kv2 => (kv.1, kv2.2)
    | none => kv)
  ++ extra.filter (fun kv2 => !(base.any (fun kv => kv.1 == kv2.1)))

/-- RequestError (src/lib/errors.js lines 95-104):
`super(STATUS_CODES.BAD_REQUEST, reason, metadata)`. -/
def RequestError (reason : Option String)
    (metadata : Option (List (String × String))) : Option HTTPError :=
  HTTPError.mk? (some (statusCodeNamed "BAD_REQUEST")) reason metadata

/-- AuthorizationError (src/lib/errors.js lines 112-121):
`super(STATUS_CODES.UNAUTHORIZED, reason, metadata)`. -/
def AuthorizationError (reason : Option String)
    (metadata : Option (List (String × String))) : Option HTTPError :=
  HTTPError.mk? (some (statusCodeNamed "UNAUTHORIZED")) reason metadata

/-- NotFoundError (src/lib/errors.js lines 129-139): calls super with
`STATUS_CODES.NOT_FOUND`, the message template joining method and path with
a space, and `Object.assign` of the method/path pair with `metadata`. -/
def NotFoundError (method path : String)
    (metadata : Option (List (String × String))) : Option HTTPError :=
  HTTPError.mk? (some (statusCodeNamed "NOT_FOUND"))
    (some (method ++ " " ++ path))
    (some (jsAssign [("method", method), ("path", path)] (metadata.getD [])))

/-- Error classes defined and exported by src/lib/errors.js: the module
object is the HTTPError class itself (line 89) with the three subclasses
attached (lines 106, 123, 141).  No other error kind exists in the module. -/
def errorTaxonomy : List String :=
  ["HTTPError", "RequestError", "AuthorizationError", "NotFoundError"]

/-- Middleware stages the server can register (src/bin/server lines 10-16). -/
inductive Stage where
  | correlation
  | authn
  | forward
deriving DecidableEq

/-- Registration sequence of src/bin/server lines 10-16: the correlation
stage is attached first and only when `Config.get('correlation:enable')` is
truthy; the authentication provider and the forwarding stage are attached
unconditionally, in that order.  No other `app.use` call exists. -/
def serverStages (correlationEnable : Bool) : List Stage :=
  (if correlationEnable then [Stage.correlation] else []) ++ [Stage.authn, Stage.forward]

/-- Alphabet of standard base64 (RFC 4648), as used by Node's
`Buffer.toString('base64')` and `hash.digest('base64')`. -/
def base64Table : List Char :=
  "ABCDEFGHIJKLMNOPQRSTUVWXYZabcdefghijklmnopqrstuvwxyz0123456789+/".data

/-- Character of the base64 alphabet at a six-bit index. -/
def base64Char (n : Nat) : Char :=
  base64Table.getD n 'A'

/-- Base64 encoding of a byte list, three bytes to four characters with
trailing `=` padding. -/
def base64Chunks : List Nat → List Char
  | [] => []
  | [b0] =>
    [base64Char (b0 / 4), base64Char (b0 % 4 * 16), '=', '=']
  | [b0, b1] =>
    [base64Char (b0 / 4), base64Char (b0 % 4 * 16 + b1 / 16),
     base64Char (b1 % 16 * 4), '=']
  | b0 :: b1 :: b2 :: rest =>
    base64Char (b0 / 4) :: base64Char (b0 % 4 * 16 + b1 / 16) ::
      base64Char (b1 % 16 * 4 + b2 / 64) :: base64Char (b2 % 64) :: base64Chunks rest

/-- Base64 encoding of a byte list as a string. -/
def base64Encode (bs : List Nat) : String :=
  String.mk (base64Chunks bs)

/-- UTF-8 encoding of a single code point as byte values. -/
def utf8EncodeCharNat (n : Nat) : List Nat :=
  if n < 128 then [n]
  else if n < 2048 then [192 + n / 64, 128 + n % 64]
  else if n < 65536 then [224 + n / 4096, 128 + n / 64 % 64, 128 + n % 64]
  else [240 + n / 262144, 128 + n / 4096 % 64, 128 + n / 64 % 64, 128 + n % 64]

/-- Byte content of `Buffer(s, 'utf8')` for a string `s`. -/
def utf8Bytes (s : String) : List Nat :=
  s.data.flatMap (fun c => utf8EncodeCharNat c.toNat)

/-- Value the reference client stores in the authorization header
(src/bin/server client part, lines 171-173 of the concatenated source):
the scheme token `Rapid7-HMAC-V1-SHA256`, a space, and the base64 encoding
of the UTF-8 bytes of `identity:signature`. -/
def clientAuthorizationValue (identity sig : String) : String :=
  "Rapid7-HMAC-V1-SHA256 " ++ base64Encode (utf8Bytes (identity ++ ":" ++ sig))

/-- Value the reference client stores in the digest header (lines 133-143 and
160-163): the algorithm name, an equals sign, and the base64 hash of the
payload.  The hash primitive `Crypto.createHash(algorithm)` is modelled by
the abstract byte function `H`; `digest()` updates the hash with the payload
only when the payload is truthy, so an absent payload (`none`) hashes the
empty byte sequence, exactly as an empty payload does. -/
def clientDigestValue (H : List Nat → List Nat) (algorithm : String)
    (payload : Option (List Nat)) : String :=
  algorithm ++ "=" ++ base64Encode (H (payload.getD []))

/-- Headers of a signed request assembled by the reference client, in
assignment order: the initial `params.headers` object (lines 223-227: date,
host, user-agent), then the digest header (line 162), then the authorization
header (line 173).  `dateStr` is the string `date.toString()` of the
untruncated request date; `nodeVersion` models `process.version`; `sig` is
the signature string computed by the Signature module over the request. -/
def clientHeaders (dateStr host nodeVersion algorithm : String)
    (H : List Nat → List Nat) (payload : Option (List Nat))
    (identity sig : String) : List (String × String) :=
  [ ("date", dateStr),
    ("host", host),
    ("user-agent", "node-" ++ nodeVersion ++ "/turnstile-tester"),
    ("digest", clientDigestValue H algorithm payload),
    ("authorization", clientAuthorizationValue identity sig) ]

/-- First header value stored under a name (header names are unique here). -/
def lookupHeader (hs : List (String × String)) (k : String) : Option String :=
  (hs.find? (fun kv => kv.1 == k)).map (fun kv => kv.2)

/-- Date value (milliseconds since the epoch) the client signs over:
lines 242-244 copy the request date and call `setMilliseconds(0)`, so the
signed date is the original truncated to whole seconds. -/
def clientSignDate (now : Nat) : Nat :=
  now - now % 1000

/-- Date value whose string form the client transmits in the date header
(line 224): the original, untruncated date. -/
def clientHeaderDateSource (now : Nat) : Nat :=
  now

/-- Listen group of the configuration surface
(src/docs/_pages/configuration.md lines 24-27). -/
structure ListenConfig where
  port : Nat
  bind : String
deriving DecidableEq

/-- Log group of the configuration surface (lines 29-34). -/
structure LogConfig where
  level : String
deriving DecidableEq

/-- Correlation group of the configuration surface (lines 39-42). -/
structure CorrelationConfig where
  enable : Bool
  header : String
deriving DecidableEq

/-- Credential database subgroup of the local group (lines 49-52). -/
structure DbConfig where
  path : String
  signal : String
deriving DecidableEq

/-- Local group of the configuration surface (lines 44-59): the credential
store location and reload signal, and the signing algorithm and skew. -/
structure LocalConfig where
  db : DbConfig
  algorithm : String
  skew : Nat
deriving DecidableEq

/-- Service group of the configuration surface (lines 65-68): the upstream
host and port. -/
structure ServiceConfig where
  port : Nat
  hostname : String
deriving DecidableEq

/-- Documented configuration surface of the turnstile server. -/
structure TurnstileConfig where
  listen : ListenConfig
  log : LogConfig
  correlation : CorrelationConfig
  «local» : LocalConfig
  service : ServiceConfig
deriving DecidableEq

/-- Default configuration documented in src/docs/_pages/configuration.md
lines 20-69. -/
def configDefaults : TurnstileConfig :=
  { listen := { port := 9300, bind := "0.0.0.0" },
    log := { level := "info" },
    correlation := { enable := true, header := "X-Request-Identifier" },
    «local» := { db := { path := "data/keys.json", signal := "SIGHUP" },
                 algorithm := "sha256", skew := 1000 },
    service := { port := 9301, hostname := "localhost" } }

/-- Top-level groups of the documented configuration surface, in document
order. -/
def configGroups : List String :=
  ["listen", "log", "correlation", "local", "service"]

/-- Evaluation lemma for the HTTPError constructor: when the phrase lookup
for the effective code succeeds, construction succeeds and assigns the four
fields exactly as src/lib/errors.js lines 35-38 do. -/
theorem httpError_mk_eval (code : Option Int) (p : String)
    (hp : statusPhrase? (effectiveCode code) = some p)
    (msg : Option String) (md : Option (List (String × String))) :
    HTTPError.mk? code msg md =
      some { code := effectiveCode code, name := constructorName p,
             message := msg.getD p, metadata := md.getD [] } := by
  unfold HTTPError.mk?
  rw [hp]

/-- Any successfully constructed HTTPError carries the effective code. -/
theorem httpError_mk_code (code : Option Int) (msg : Option String)
    (md : Option (List (String × String))) (e : HTTPError)
    (h : HTTPError.mk? code msg md = some e) : e.code = effectiveCode code := by
  unfold HTTPError.mk? at h
  cases hp : statusPhrase? (effectiveCode code) with
  | none => rw [hp] at h; cases h
  | some p => rw [hp] at h; cases h; rfl

/-- Numeric value of the reverse-mapped internal server error constant. -/
theorem internalServerErrorCode_eq : internalServerErrorCode = 500 := by decide

/-- Effective code of an omitted or NaN code argument. -/
theorem effectiveCode_none : effectiveCode none = internalServerErrorCode := rfl

/-- Effective code of a nonzero numeric code argument. -/
theorem effectiveCode_some (n : Int) (h : n ≠ 0) : effectiveCode (some n) = n := by
  unfold effectiveCode
  exact if_neg h

/-- C2: the server attaches the correlation stage first and only when
`correlation:enable` is set, then the authentication stage, then the
forwarding stage; no other registration order is possible and no other
stage is configuration-gated. -/
theorem pipeline_stage_order : ∀ b : Bool,
    serverStages b = (if b then [Stage.correlation, Stage.authn, Stage.forward]
                      else [Stage.authn, Stage.forward]) ∧
    (Stage.correlation ∈ serverStages b ↔ b = true) ∧
    Stage.authn ∈ serverStages b ∧ Stage.forward ∈ serverStages b := by
  decide

/-- C3 counterexample: the error module exports no UpstreamError and no
InternalError kind. -/
theorem taxonomy_missing_kinds_counterexample :
    "UpstreamError" ∉ errorTaxonomy ∧ "InternalError" ∉ errorTaxonomy := by
  decide

/-- C3 amended: RequestError always carries code 400, AuthorizationError
code 401, NotFoundError code 404; the taxonomy consists of exactly the
generic HTTPError (which defaults to code 500) and those three subclasses,
with no dedicated UpstreamError or InternalError kind. -/
theorem taxonomy_codes_amended :
    (∀ reason md, ∃ e, RequestError reason md = some e ∧ e.code = 400) ∧
    (∀ reason md, ∃ e, AuthorizationError reason md = some e ∧ e.code = 401) ∧
    (∀ method path md, ∃ e, NotFoundError method path md = some e ∧ e.code = 404) ∧
    (∃ e, HTTPError.mk? none none none = some e ∧ e.code = 500) ∧
    errorTaxonomy = ["HTTPError", "RequestError", "AuthorizationError", "NotFoundError"] := by
  refine ⟨?_, ?_, ?_, ?_, rfl⟩
  · intro reason md
    refine ⟨_, httpError_mk_eval _ "Bad Request" (by decide) reason md, ?_⟩
    show effectiveCode (some (statusCodeNamed "BAD_REQUEST")) = 400
    decide
  · intro reason md
    refine ⟨_, httpError_mk_eval _ "Unauthorized" (by decide) reason md, ?_⟩
    show effectiveCode (some (statusCodeNamed "UNAUTHORIZED")) = 401
    decide
  · intro method path md
    refine ⟨_, httpError_mk_eval _ "Not Found" (by decide) _ _, ?_⟩
    show effectiveCode (some (statusCodeNamed "NOT_FOUND")) = 404
    decide
  · refine ⟨_, httpError_mk_eval none "Internal Server Error" (by decide) none none, ?_⟩
    show effectiveCode none = 500
    decide

/-- C6 counterexample: the HTTPError built from code 400 has name
`BadRequest`, which is not the uppercased status phrase `BAD REQUEST`. -/
theorem error_name_counterexample :
    ∃ e, HTTPError.mk? (some 400) none none = some e ∧
      e.name = "BadRequest" ∧ e.name ≠ "BAD REQUEST" := by
  exact ⟨_, httpError_mk_eval (some 400) "Bad Request" (by decide) none none,
    by decide, by decide⟩

/-- C6 amended: for every HTTPError constructed with a standard status code,
the name field is the status phrase with every character outside
`[a-zA-Z0-9_]` removed, case preserved (not uppercased). -/
theorem error_name_amended : ∀ (c : Int) (p : String) (msg : Option String)
    (md : Option (List (String × String))), statusPhrase? c = some p →
    ∃ e, HTTPError.mk? (some c) msg md = some e ∧ e.name = constructorName p := by
  intro c p msg md hp
  have hc : c ≠ 0 := by
    intro h0
    rw [h0, show statusPhrase? 0 = none from by decide] at hp
    cases hp
  exact ⟨_, httpError_mk_eval (some c) p (by rw [effectiveCode_some c hc]; exact hp) msg md, rfl⟩

/-- C6 witness: the amended statement evaluated at code 400, whose phrase is
`Bad Request` and whose stripped name is `BadRequest`. -/
theorem error_name_witness :
    ∃ e, HTTPError.mk? (some 400) none none = some e ∧
      e.name = constructorName "Bad Request" :=
  error_name_amended 400 "Bad Request" none none (by decide)

/-- C7 counterexample: the documented configuration surface has a `log`
group, which is outside the groups the claim enumerates, and no top-level
`signing` group (the signing settings live inside `local`). -/
theorem config_surface_counterexample :
    "log" ∈ configGroups ∧
    "log" ∉ ["listen", "correlation", "local", "signing", "upstream"] ∧
    "signing" ∉ configGroups := by
  decide

/-- C7 amended: the configuration surface consists exactly of the groups
listen (default 0.0.0.0:9300), log (default level info), correlation
(default enabled with header X-Request-Identifier), local — holding the
credential store path (default data/keys.json), its reload signal (default
SIGHUP) and the signing algorithm (default sha256) and skew (default 1000
milliseconds) — and service, the upstream host (default localhost:9301). -/
theorem config_surface_amended :
    configGroups = ["listen", "log", "correlation", "local", "service"] ∧
    configDefaults.listen.port = 9300 ∧
    configDefaults.listen.bind = "0.0.0.0" ∧
    configDefaults.log.level = "info" ∧
    configDefaults.correlation.enable = true ∧
    configDefaults.correlation.header = "X-Request-Identifier" ∧
    configDefaults.«local».db.path = "data/keys.json" ∧
    configDefaults.«local».db.signal = "SIGHUP" ∧
    configDefaults.«local».algorithm = "sha256" ∧
    configDefaults.«local».skew = 1000 ∧
    configDefaults.service.hostname = "localhost" ∧
    configDefaults.service.port = 9301 := by
  decide

/-- C8: after the module-load loop of src/lib/errors.js runs, the
STATUS_CODES table still maps every standard numeric code (as its string
key) to its phrase, and additionally maps the key obtained from the phrase
by replacing every character outside `[a-zA-Z0-9_]` with an underscore and
uppercasing to the numeric code. -/
theorem status_table_roundtrip : ∀ cp ∈ nodeStatusCodes,
    jsGet statusTable (Nat.repr cp.1) = some (StatusVal.str cp.2) ∧
    jsGet statusTable (statusName cp.2) = some (StatusVal.num cp.1) := by
  decide

/-- C8 witness: the round-trip property at the entry for 404 Not Found. -/
theorem status_table_roundtrip_witness :
    jsGet statusTable (Nat.repr 404) = some (StatusVal.str "Not Found") ∧
    jsGet statusTable (statusName "Not Found") = some (StatusVal.num 404) :=
  status_table_roundtrip (404, "Not Found") (by decide)

/-- C1 counterexample: an error that is not an HTTPError and whose numeric
code 999 is not a standard status code makes the terminal handler throw
while wrapping (line 36 of src/lib/errors.js dereferences an undefined
table entry), so the caller receives no structured response at all. -/
theorem handler_nonstandard_code_counterexample :
    HTTPError.handler { http := none, code := some 999, message := none } = none :=
  rfl

/-- C1 amended: whenever the terminal handler produces a response — which it
does for every HTTPError instance, and for every other error whose defaulted
code is a standard status code — the body is the serialization of an object
with exactly the fields code, name, message and metadata and no stack field,
the status code is the (possibly wrapped) error's code with 500 substituted
for a falsy one, a non-HTTPError is first wrapped into an HTTPError, and an
error carrying no code is reported with status 500. -/
theorem handler_response_shape : ∀ (err : ErrInput) (r : Int × List (String × JValue)),
    HTTPError.handler err = some r →
    r.2.map Prod.fst = ["code", "name", "message", "metadata"] ∧
    "stack" ∉ r.2.map Prod.fst ∧
    (∃ e : HTTPError, r.2 = HTTPError.toJSON e ∧
      r.1 = (if e.code = 0 then internalServerErrorCode else e.code) ∧
      (err.http = some e ∨
        (err.http = none ∧ HTTPError.mk? err.code err.message none = some e))) ∧
    (err.http = none → err.code = none → r.1 = 500) := by
  intro err r h
  obtain ⟨http, code, message⟩ := err
  cases http with
  | some e =>
    cases h
    refine ⟨rfl, ?_, ⟨e, rfl, rfl, Or.inl rfl⟩, ?_⟩
    · show "stack" ∉ ["code", "name", "message", "metadata"]
      decide
    · intro h1
      cases h1
  | none =>
    unfold HTTPError.handler at h
    cases hm : HTTPError.mk? code message none with
    | none => rw [hm] at h; cases h
    | some e =>
      rw [hm] at h
      cases h
      refine ⟨rfl, ?_, ⟨e, rfl, rfl, Or.inr ⟨rfl, rfl⟩⟩, ?_⟩
      · show "stack" ∉ ["code", "name", "message", "metadata"]
        decide
      · intro _ hcode
        subst hcode
        have hc := httpError_mk_code none message none e hm
        rw [hc, effectiveCode_none, internalServerErrorCode_eq]
        norm_num

/-- C1 witness: the handler applied to a bare error with no code and no
message responds with status 500 and the four-field body. -/
theorem handler_response_shape_witness :
    HTTPError.handler { http := none, code := none, message := none } =
      some (500, HTTPError.toJSON ⟨500, "InternalServerError", "Internal Server Error", []⟩) ∧
    (HTTPError.toJSON ⟨500, "InternalServerError", "Internal Server Error", []⟩).map Prod.fst =
      ["code", "name", "message", "metadata"] := by
  have h : HTTPError.handler { http := none, code := none, message := none } =
      some (500, HTTPError.toJSON ⟨500, "InternalServerError", "Internal Server Error", []⟩) := rfl
  exact ⟨h, (handler_response_shape _ _ h).1⟩

/-- C4 counterexample: at identity `user` and signature `abc`, the client's
authorization header is the scheme followed by the base64 text
`dXNlcjphYmM=`, not by the plain pair `user:abc` the claim describes. -/
theorem client_authorization_counterexample :
    lookupHeader (clientHeaders "D" "example.com" "v8.0.0" "sha256"
        (fun bs => bs) none "user" "abc") "authorization" =
      some "Rapid7-HMAC-V1-SHA256 dXNlcjphYmM=" ∧
    "Rapid7-HMAC-V1-SHA256 dXNlcjphYmM=" ≠ "Rapid7-HMAC-V1-SHA256 user:abc" := by
  decide

/-- C4 amended: every signed request constructed by the reference client
carries the date, host, digest and authorization headers, and the
authorization value is the scheme token `Rapid7-HMAC-V1-SHA256`, a space,
and the base64 encoding of the identity and signature joined by a colon. -/
theorem client_headers_amended : ∀ (dateStr host nodeVersion algorithm : String)
    (H : List Nat → List Nat) (payload : Option (List Nat)) (identity sig : String),
    lookupHeader (clientHeaders dateStr host nodeVersion algorithm H payload identity sig)
      "date" = some dateStr ∧
    lookupHeader (clientHeaders dateStr host nodeVersion algorithm H payload identity sig)
      "host" = some host ∧
    lookupHeader (clientHeaders dateStr host nodeVersion algorithm H payload identity sig)
      "digest" = some (clientDigestValue H algorithm payload) ∧
    lookupHeader (clientHeaders dateStr host nodeVersion algorithm H payload identity sig)
      "authorization" = some (clientAuthorizationValue identity sig) ∧
    clientAuthorizationValue identity sig =
      "Rapid7-HMAC-V1-SHA256 " ++ base64Encode (utf8Bytes (identity ++ ":" ++ sig)) := by
  intro dateStr host nodeVersion algorithm H payload identity sig
  exact ⟨rfl, rfl, rfl, rfl, rfl⟩

/-- C5: the digest header the client sends is always present and equals the
algorithm name, an equals sign, and the base64 encoding of the algorithm's
hash of the request body, where an absent or empty payload hashes the empty
input. -/
theorem client_digest_header : ∀ (dateStr host nodeVersion algorithm : String)
    (H : List Nat → List Nat) (payload : Option (List Nat)) (identity sig : String),
    lookupHeader (clientHeaders dateStr host nodeVersion algorithm H payload identity sig)
      "digest" = some (algorithm ++ "=" ++ base64Encode (H (payload.getD []))) ∧
    ((payload = none ∨ payload = some []) →
      lookupHeader (clientHeaders dateStr host nodeVersion algorithm H payload identity sig)
        "digest" = some (algorithm ++ "=" ++ base64Encode (H []))) := by
  intro dateStr host nodeVersion algorithm H payload identity sig
  refine ⟨rfl, ?_⟩
  rintro (rfl | rfl) <;> rfl

/-- C5 witness: with no payload the digest header holds the base64 hash of
the empty input. -/
theorem client_digest_header_witness :
    lookupHeader (clientHeaders "D" "h" "v" "sha256" (fun bs => bs) none "u" "s")
      "digest" = some ("sha256" ++ "=" ++ base64Encode []) :=
  (client_digest_header "D" "h" "v" "sha256" (fun bs => bs) none "u" "s").2 (Or.inl rfl)

/-- C9: a falsy or non-numeric code argument yields code 500; an omitted
message defaults to the standard status phrase of the effective code; an
omitted metadata argument defaults to the empty object; and construction
succeeds exactly when the effective code is present in the status table. -/
theorem constructor_defaults :
    (∀ msg md, ∃ e, HTTPError.mk? none msg md = some e ∧
      HTTPError.mk? (some 0) msg md = some e ∧ e.code = 500) ∧
    (∀ code md e, HTTPError.mk? code none md = some e →
      statusPhrase? e.code = some e.message) ∧
    (∀ code msg e, HTTPError.mk? code msg none = some e → e.metadata = []) ∧
    (∀ n : Int, n ≠ 0 → ∀ msg md,
      (HTTPError.mk? (some n) msg md).isSome = (statusPhrase? n).isSome) := by
  refine ⟨?_, ?_, ?_, ?_⟩
  · intro msg md
    refine ⟨_, httpError_mk_eval none "Internal Server Error" (by decide) msg md, ?_, ?_⟩
    · exact httpError_mk_eval (some 0) "Internal Server Error" (by decide) msg md
    · show effectiveCode none = 500
      decide
  · intro code md e h
    unfold HTTPError.mk? at h
    cases hp : statusPhrase? (effectiveCode code) with
    | none => rw [hp] at h; cases h
    | some p => rw [hp] at h; cases h; exact hp
  · intro code msg e h
    unfold HTTPError.mk? at h
    cases hp : statusPhrase? (effectiveCode code) with
    | none => rw [hp] at h; cases h
    | some p => rw [hp] at h; cases h; rfl
  · intro n hn msg md
    unfold HTTPError.mk?
    rw [effectiveCode_some n hn]
    cases hp : statusPhrase? n with
    | none => rfl
    | some p => rfl

/-- C9 witness: at code 404 construction succeeds, matching the presence of
404 in the status table. -/
theorem constructor_defaults_witness :
    (HTTPError.mk? (some 404) none none).isSome = (statusPhrase? (404 : Int)).isSome ∧
    (statusPhrase? (404 : Int)).isSome = true :=
  ⟨constructor_defaults.2.2.2 404 (by decide) none none, by decide⟩

/-- C10: the client signs over the request date truncated to whole seconds
(milliseconds zeroed) while the transmitted date header comes from the
untruncated date, so the two agree at second precision and differ whenever
the original date has a nonzero millisecond part. -/
theorem client_date_truncation : ∀ now : Nat,
    clientSignDate now = now - now % 1000 ∧
    clientSignDate now % 1000 = 0 ∧
    clientSignDate now / 1000 = clientHeaderDateSource now / 1000 ∧
    (now % 1000 ≠ 0 → clientSignDate now ≠ clientHeaderDateSource now) := by
  intro now
  unfold clientSignDate clientHeaderDateSource
  refine ⟨rfl, ?_, ?_, ?_⟩ <;> omega

/-- C10 witness: at a date with 567 leftover milliseconds the signed date
differs from the transmitted one. -/
theorem client_date_truncation_witness :
    (1234567 : Nat) % 1000 ≠ 0 ∧ clientSignDate 1234567 ≠ clientHeaderDateSource 1234567 :=
  ⟨by decide, (client_date_truncation 1234567).2.2.2 (by decide)⟩
